import Mathlib

/-!
Shallow embedding of the cross-process synchronization core of the
`my-launcher` repository: the length-prefixed framing codec (`src/ipc.rs`
and the stdio loop of `src/native_host.rs`), the shared tab store and
command queue (`src/core/native_messaging.rs`), the pipe-server dispatch
(`run_ipc_server` in `src/main.rs`), the WebSocket request handling
(`src/websocket_server.rs`), and the native-messaging bridge translation
(`handle_command` in `src/native_host.rs`).

Byte streams are modelled as `List Nat` (each element one octet), machine
integers (`i32`, `i64`) as `Int` with explicit range checks where the code
(serde deserialization) performs them, strings as Lean `String`.  Rust's
`to_lowercase` is modelled char-wise by `Char.toLower`, which agrees with
it on ASCII.  serde_json's serializer/deserializer for `IpcMessage` is an
external library and is passed as an explicit function parameter where the
source calls it; JSON values that the code inspects structurally are
modelled by an explicit `Json` type together with deserializers translated
from the serde derive attributes on the Rust types.
-/

/-! ## Framing codec (`src/ipc.rs`) -/

/-- The 4 little-endian bytes of `(length as u32).to_le_bytes()`. -/
def toLE4 (n : Nat) : List Nat :=
  [n % 256, n / 256 % 256, n / 65536 % 256, n / 16777216 % 256]

/-- `u32::from_le_bytes` applied to the first four bytes of a stream. -/
def fromLE4 (l : List Nat) : Nat :=
  match l with
  | a :: b :: c :: d :: _ => a + 256 * b + 65536 * c + 16777216 * d
  | _ => 0

/-- Outcome of the framing portion of `read_message` (`ipc.rs:54-70`):
either the body together with the remaining stream, or the `read_exact`
failure that occurred (while reading the 4 length bytes, or while reading
the body). -/
inductive FrameResult where
  | ok (body rest : List Nat)
  | eofLen
  | eofBody
deriving DecidableEq, Repr

/-- Framing portion of `read_message` (`ipc.rs:54-70`): read exactly 4
length bytes, then read exactly `message_length` body bytes.  The source
performs no validation of the advertised length. -/
def readFrame (stream : List Nat) : FrameResult :=
  if 4 ≤ stream.length then
    let message_length := fromLE4 (stream.take 4)
    let after := stream.drop 4
    if message_length ≤ after.length then
      .ok (after.take message_length) (after.drop message_length)
    else .eofBody
  else .eofLen

/-- JSON schemas shared by the pipe transport: `TabInfo` (`ipc.rs:25-34`). -/
structure TabInfo where
  id : Int
  window_id : Int
  title : String
  url : String
  fav_icon_url : String
  active : Bool
  index : Int
deriving DecidableEq, Repr

/-- `ChromeExtensionCommand` (`ipc.rs:20-23`). -/
inductive ChromeExtensionCommand where
  | SwitchToTab (tab_id window_id : Int)
deriving DecidableEq, Repr

/-- `IpcMessage` (`ipc.rs:10-18`). -/
inductive IpcMessage where
  | GetTabs
  | SwitchToTab (tab_id window_id : Int)
  | TabList (tabs : List TabInfo)
  | TabSwitchResult (success : Bool) (error : Option String)
  | ChromeCommand (command : ChromeExtensionCommand)
deriving DecidableEq, Repr

/-- Outcome of `read_message` including the serde parse step. -/
inductive ReadMessageResult where
  | ok (m : IpcMessage) (rest : List Nat)
  | eofLen
  | eofBody
  | parseError
deriving DecidableEq, Repr

/-- `read_message` (`ipc.rs:54-70`): the framing read followed by
`serde_json::from_slice`; the serde deserializer is the external-library
parameter `parse`. -/
def read_message (parse : List Nat → Option IpcMessage) (stream : List Nat) :
    ReadMessageResult :=
  match readFrame stream with
  | .ok body rest =>
    match parse body with
    | some m => .ok m rest
    | none => .parseError
  | .eofLen => .eofLen
  | .eofBody => .eofBody

/-- `send_message` (`ipc.rs:36-52`): serialize with serde (`ser`), write
the body length as 4 little-endian bytes (`len as u32` truncates modulo
`2^32`), then the body. -/
def send_message (ser : IpcMessage → List Nat) (message : IpcMessage) : List Nat :=
  let json_bytes := ser message
  toLE4 (json_bytes.length % 4294967296) ++ json_bytes

/-- Outcome of one envelope read in the stdio loop of
`native_host.rs:52-80`: `eofLen` covers the clean break on end of input,
`invalidLength` the explicit validation break, `eofBody` a short body. -/
inductive StdioFrameResult where
  | ok (body rest : List Nat)
  | eofLen
  | invalidLength (n : Nat)
  | eofBody
deriving DecidableEq, Repr

/-- Envelope read of the bridge's stdio loop (`native_host.rs:52-80`):
read 4 length bytes, reject `message_length == 0 || message_length >
1024 * 1024` before reading the body, else read exactly that many body
bytes. -/
def native_host_read_envelope (stream : List Nat) : StdioFrameResult :=
  if 4 ≤ stream.length then
    let message_length := fromLE4 (stream.take 4)
    if message_length = 0 ∨ 1024 * 1024 < message_length then
      .invalidLength message_length
    else
      let after := stream.drop 4
      if message_length ≤ after.length then
        .ok (after.take message_length) (after.drop message_length)
      else .eofBody
  else .eofLen

/-- Concrete serde-compatible serializer instance used to instantiate the
round-trip theorem at a closed input (the serde pair itself is external
library code, hence a parameter of `send_message`/`read_message`). -/
def sampleSer (_ : IpcMessage) : List Nat := [34]

/-- Left inverse of `sampleSer` at `IpcMessage.GetTabs`. -/
def sampleParse (l : List Nat) : Option IpcMessage :=
  if l = [34] then some IpcMessage.GetTabs else none

/-! ## Shared state (`src/core/native_messaging.rs`) -/

/-- `ChromeTab` (`native_messaging.rs:5-14`). -/
structure ChromeTab where
  id : Int
  window_id : Int
  title : String
  url : String
  fav_icon_url : String
  active : Bool
  index : Int
deriving DecidableEq, Repr

/-- `ChromeCommand` (`native_messaging.rs:22-25`). -/
inductive ChromeCommand where
  | SwitchToTab (tab_id window_id : Int)
deriving DecidableEq, Repr

/-- The state behind `TabManager` (`native_messaging.rs:16-20`): the
tab-list snapshot and the FIFO command queue (a `VecDeque`, modelled as a
list with head at the front). -/
structure TabManager where
  tabs : List ChromeTab
  command_queue : List ChromeCommand
deriving DecidableEq, Repr

/-- `TabManager::new` (`native_messaging.rs:28-33`). -/
def TabManager.new : TabManager := ⟨[], []⟩

/-- `TabManager::update_tabs` (`native_messaging.rs:35-38`). -/
def TabManager.update_tabs (s : TabManager) (tabs : List ChromeTab) : TabManager :=
  { s with tabs := tabs }

/-- `TabManager::get_tabs` (`native_messaging.rs:40-42`). -/
def TabManager.get_tabs (s : TabManager) : List ChromeTab :=
  s.tabs

/-- Rust `str::to_lowercase`, modelled char-wise (agrees on ASCII). -/
def strToLower (s : String) : String := ⟨s.data.map Char.toLower⟩

/-- Rust `str::contains(&str)`: substring containment of `needle` in a
haystack, here on char lists. -/
def containsSeq (needle : List Char) : List Char → Bool
  | [] => needle.isEmpty
  | a :: t => needle.isPrefixOf (a :: t) || containsSeq needle t

/-- `TabManager::search_tabs` (`native_messaging.rs:44-58`). -/
def TabManager.search_tabs (s : TabManager) (query : String) : List ChromeTab :=
  if query.isEmpty then s.tabs
  else
    let query_lower := strToLower query
    s.tabs.filter (fun tab =>
      containsSeq query_lower.data (strToLower tab.title).data
        || containsSeq query_lower.data (strToLower tab.url).data)

/-- `TabManager::queue_command` (`native_messaging.rs:60-63`):
`VecDeque::push_back`. -/
def TabManager.queue_command (s : TabManager) (command : ChromeCommand) : TabManager :=
  { s with command_queue := s.command_queue ++ [command] }

/-- `TabManager::pop_command` (`native_messaging.rs:65-68`):
`VecDeque::pop_front`, returning the popped command (if any) and the
updated state. -/
def TabManager.pop_command (s : TabManager) : Option ChromeCommand × TabManager :=
  match s.command_queue with
  | [] => (none, s)
  | c :: rest => (some c, { s with command_queue := rest })

/-- Predicate the spec states for `search`: title or URL contains the
query case-insensitively. -/
def containsCaseInsensitive (hay needle : String) : Bool :=
  containsSeq (strToLower needle).data (strToLower hay).data

/-! ## Pipe server dispatch (`run_ipc_server`, `src/main.rs:444-560`) -/

/-- Conversion inlined at `main.rs:469-474` (`ChromeCommand` to
`ChromeExtensionCommand`). -/
def chromeExtensionCommandOfChromeCommand : ChromeCommand → ChromeExtensionCommand
  | .SwitchToTab tab_id window_id => .SwitchToTab tab_id window_id

/-- Conversion inlined at `main.rs:483-491` (`ChromeTab` to ipc `TabInfo`,
field for field). -/
def tabInfoOfChromeTab (t : ChromeTab) : TabInfo :=
  ⟨t.id, t.window_id, t.title, t.url, t.fav_icon_url, t.active, t.index⟩

/-- Conversion inlined at `main.rs:509-517` (ipc `TabInfo` to
`ChromeTab`). -/
def chromeTabOfTabInfo (t : TabInfo) : ChromeTab :=
  ⟨t.id, t.window_id, t.title, t.url, t.fav_icon_url, t.active, t.index⟩

/-- One iteration of the message-handling match in `run_ipc_server`
(`main.rs:460-532`): given the shared `TabManager` state and the inbound
`IpcMessage`, produce the response (`none` models the `continue` on
unexpected message types) and the updated state. -/
def run_ipc_server_step (tab_manager : TabManager) (message : IpcMessage) :
    Option IpcMessage × TabManager :=
  match message with
  | .GetTabs =>
    match tab_manager.pop_command with
    | (some command, s') =>
      let ext_command := chromeExtensionCommandOfChromeCommand command
      (some (.ChromeCommand ext_command), s')
    | (none, s') =>
      (some (.TabList (s'.get_tabs.map tabInfoOfChromeTab)), s')
  | .SwitchToTab _ _ =>
    (some (.TabSwitchResult true none), tab_manager)
  | .TabList tabs =>
    (some (.TabSwitchResult true none),
      tab_manager.update_tabs (tabs.map chromeTabOfTabInfo))
  | _ => (none, tab_manager)

/-! ## WebSocket protocol (`src/websocket_types.rs`, `src/websocket_server.rs`) -/

/-- JSON values, for the places where the code inspects JSON
structurally (`serde_json::Value`). -/
inductive Json where
  | null
  | bool (b : Bool)
  | num (n : Int)
  | str (s : String)
  | arr (elems : List Json)
  | obj (fields : List (String × Json))

/-- Field lookup in a JSON object (serde map access; `none` when the
value is not an object or the key is absent). -/
def Json.getField (j : Json) (key : String) : Option Json :=
  match j with
  | .obj fields => (fields.find? (fun f => f.1 == key)).map (fun f => f.2)
  | _ => none

/-- serde deserialization into `i32` (range-checked). -/
def deserI32 : Json → Option Int
  | .num n => if -2147483648 ≤ n ∧ n ≤ 2147483647 then some n else none
  | _ => none

/-- serde deserialization into `i64` (range-checked). -/
def deserI64 : Json → Option Int
  | .num n => if -9223372036854775808 ≤ n ∧ n ≤ 9223372036854775807 then some n else none
  | _ => none

/-- serde deserialization into `String`. -/
def deserString : Json → Option String
  | .str s => some s
  | _ => none

/-- serde deserialization into `bool`. -/
def deserBool : Json → Option Bool
  | .bool b => some b
  | _ => none

/-- serde deserialization into `ChromeTab` (`native_messaging.rs:5-14`,
no field renames, all fields required, unknown fields ignored). -/
def deserChromeTab (j : Json) : Option ChromeTab := do
  let id ← deserI32 (← j.getField "id")
  let window_id ← deserI32 (← j.getField "window_id")
  let title ← deserString (← j.getField "title")
  let url ← deserString (← j.getField "url")
  let fav_icon_url ← deserString (← j.getField "fav_icon_url")
  let active ← deserBool (← j.getField "active")
  let index ← deserI32 (← j.getField "index")
  pure ⟨id, window_id, title, url, fav_icon_url, active, index⟩

/-- serde deserialization into `Vec<ChromeTab>`. -/
def deserChromeTabList (j : Json) : Option (List ChromeTab) :=
  match j with
  | .arr elems => elems.mapM deserChromeTab
  | _ => none

/-- `UpdateTabsParams` (`websocket_server.rs:230-233`). -/
structure UpdateTabsParams where
  tabs : List ChromeTab
deriving DecidableEq, Repr

/-- `SwitchTabParams` (`websocket_server.rs:235-239`). -/
structure SwitchTabParams where
  tab_id : Int
  window_id : Int
deriving DecidableEq, Repr

/-- serde deserialization into `UpdateTabsParams`. -/
def deserUpdateTabsParams (j : Json) : Option UpdateTabsParams := do
  let tabs ← deserChromeTabList (← j.getField "tabs")
  pure ⟨tabs⟩

/-- serde deserialization into `SwitchTabParams`. -/
def deserSwitchTabParams (j : Json) : Option SwitchTabParams := do
  let tab_id ← deserI32 (← j.getField "tab_id")
  let window_id ← deserI32 (← j.getField "window_id")
  pure ⟨tab_id, window_id⟩

/-- `ResponseResult` (`websocket_types.rs:31-37`, untagged). -/
inductive ResponseResult where
  | Tabs (tabs : List ChromeTab)
  | Success (success : Bool)
  | Pong (timestamp : Int)
deriving DecidableEq, Repr

/-- `ErrorInfo` (`websocket_types.rs:39-43`). -/
structure ErrorInfo where
  code : Int
  message : String
deriving DecidableEq, Repr

/-- `EventType` (`websocket_types.rs:45-50`). -/
inductive EventType where
  | TabSwitchRequested
  | TabsUpdated
deriving DecidableEq, Repr

/-- `EventData` (`websocket_types.rs:52-57`, untagged). -/
inductive EventData where
  | TabSwitch (tab_id window_id : Int)
  | TabsUpdate (tabs : List ChromeTab)
deriving DecidableEq, Repr

/-- `WebSocketMessage` (`websocket_types.rs:4-27`, internally tagged on
`"type"`). `params` keeps the raw JSON value, as `Option<serde_json::Value>`
does. -/
inductive WebSocketMessage where
  | Request (id : String) (method : String) (params : Option Json)
  | Response (id : String) (result : Option ResponseResult) (error : Option ErrorInfo)
  | Event (event : EventType) (data : EventData)

/-- `WebSocketMessage::response_ok` (`websocket_types.rs:64-70`). -/
def response_ok (id : String) (result : ResponseResult) : WebSocketMessage :=
  .Response id (some result) none

/-- `WebSocketMessage::response_error` (`websocket_types.rs:72-78`). -/
def response_error (id : String) (code : Int) (message : String) : WebSocketMessage :=
  .Response id none (some ⟨code, message⟩)

/-- serde deserialization of an optional struct field of `Option` type:
missing field and JSON `null` both give `none`. -/
def deserOptField {α : Type} (j : Json) (key : String) (deser : Json → Option α) :
    Option (Option α) :=
  match j.getField key with
  | none => some none
  | some .null => some none
  | some v => (deser v).map some

/-- serde deserialization into untagged `ResponseResult`: variants tried
in declaration order. -/
def deserResponseResult (j : Json) : Option ResponseResult :=
  (do
    let tabs ← deserChromeTabList (← j.getField "tabs")
    pure (ResponseResult.Tabs tabs))
  <|> (do
    let success ← deserBool (← j.getField "success")
    pure (ResponseResult.Success success))
  <|> (do
    let timestamp ← deserI64 (← j.getField "timestamp")
    pure (ResponseResult.Pong timestamp))

/-- serde deserialization into `ErrorInfo`. -/
def deserErrorInfo (j : Json) : Option ErrorInfo := do
  let code ← deserI32 (← j.getField "code")
  let message ← deserString (← j.getField "message")
  pure ⟨code, message⟩

/-- serde deserialization into camelCase-renamed `EventType`. -/
def deserEventType (j : Json) : Option EventType :=
  match j with
  | .str "tabSwitchRequested" => some .TabSwitchRequested
  | .str "tabsUpdated" => some .TabsUpdated
  | _ => none

/-- serde deserialization into untagged `EventData`. -/
def deserEventData (j : Json) : Option EventData :=
  (do
    let tab_id ← deserI32 (← j.getField "tab_id")
    let window_id ← deserI32 (← j.getField "window_id")
    pure (EventData.TabSwitch tab_id window_id))
  <|> (do
    let tabs ← deserChromeTabList (← j.getField "tabs")
    pure (EventData.TabsUpdate tabs))

/-- `serde_json::from_str::<WebSocketMessage>` on a valid JSON value
(`websocket_server.rs:101`): internally tagged on `"type"`. -/
def parseWebSocketMessage (j : Json) : Option WebSocketMessage :=
  match j.getField "type" with
  | some (.str "request") => do
    let id ← deserString (← j.getField "id")
    let method ← deserString (← j.getField "method")
    let params ← deserOptField j "params" some
    pure (.Request id method params)
  | some (.str "response") => do
    let id ← deserString (← j.getField "id")
    let result ← deserOptField j "result" deserResponseResult
    let error ← deserOptField j "error" deserErrorInfo
    pure (.Response id result error)
  | some (.str "event") => do
    let event ← deserEventType (← j.getField "event")
    let data ← deserEventData (← j.getField "data")
    pure (.Event event data)
  | _ => none

/-- `handle_request` (`websocket_server.rs:170-228`).  The wall clock read
by the `keepAlive` branch (`chrono::Utc::now().timestamp_millis()`) is the
explicit argument `now`; the shared `TabManager` state is threaded
explicitly. -/
def handle_request (id : String) (method : String) (params : Option Json)
    (now : Int) (tab_manager : TabManager) : WebSocketMessage × TabManager :=
  if method = "getTabs" then
    (response_ok id (.Tabs tab_manager.get_tabs), tab_manager)
  else if method = "updateTabs" then
    match params with
    | some p =>
      match deserUpdateTabsParams p with
      | some tabs_data =>
        (response_ok id (.Success true), tab_manager.update_tabs tabs_data.tabs)
      | none => (response_error id 400 "Invalid updateTabs params", tab_manager)
    | none => (response_error id 400 "Missing params for updateTabs", tab_manager)
  else if method = "switchToTab" then
    match params with
    | some p =>
      match deserSwitchTabParams p with
      | some switch_params =>
        (response_ok id (.Success true),
          tab_manager.queue_command
            (.SwitchToTab switch_params.tab_id switch_params.window_id))
      | none => (response_error id 400 "Invalid switchToTab params", tab_manager)
    | none => (response_error id 400 "Missing params for switchToTab", tab_manager)
  else if method = "keepAlive" then
    (response_ok id (.Pong now), tab_manager)
  else
    (response_error id 404 ("Unknown method: " ++ method), tab_manager)

/-- What the session loop does with one inbound text frame: send a reply
(and keep going), or only log and drop the frame (and keep going). -/
inductive SessionAct where
  | reply (m : WebSocketMessage)
  | drop

/-- Text-frame dispatch of `handle_connection` (`websocket_server.rs:98-119`):
a parsed `Request` is answered via `handle_request`; any other parse
outcome (non-`Request` message, or JSON not matching the schema) is logged
and dropped with no reply, and the session loop continues. -/
def handle_connection_step (j : Json) (now : Int) (tab_manager : TabManager) :
    SessionAct × TabManager :=
  match parseWebSocketMessage j with
  | some (.Request id method params) =>
    let r := handle_request id method params now tab_manager
    (.reply r.1, r.2)
  | some _ => (.drop, tab_manager)
  | none => (.drop, tab_manager)

/-! ## Native-messaging bridge translation (`src/native_host.rs`) -/

/-- Bridge-side `TabInfo` (`native_host.rs:25-36`). -/
structure NHTabInfo where
  id : Int
  window_id : Int
  title : String
  url : String
  fav_icon_url : String
  active : Bool
  index : Int
deriving DecidableEq, Repr

/-- Bridge `Command` (`native_host.rs:7-14`). -/
inductive NHCommand where
  | GetTabs
  | SwitchToTab (tabId windowId : Int)
deriving DecidableEq, Repr

/-- Bridge `Response` (`native_host.rs:16-23`). -/
inductive NHResponse where
  | TabList (tabs : List NHTabInfo)
  | SwitchResult (success : Bool) (tabId : Option Int) (error : Option String)
deriving DecidableEq, Repr

/-- Conversion inlined at `native_host.rs:158-166` (ipc `TabInfo` to
bridge `TabInfo`, field for field). -/
def nhTabInfoOfIpcTabInfo (t : TabInfo) : NHTabInfo :=
  ⟨t.id, t.window_id, t.title, t.url, t.fav_icon_url, t.active, t.index⟩

/-- `handle_command` (`native_host.rs:148-241`, windows path): the result
of `communicate_with_launcher` is the argument `launcher_reply` (`none`
models its error return; the catch-all `_` arms of the source also absorb
replies of unexpected variants). -/
def handle_command (command : NHCommand) (launcher_reply : Option IpcMessage) :
    NHResponse :=
  match command with
  | .GetTabs =>
    match launcher_reply with
    | some (.TabList tabs) => .TabList (tabs.map nhTabInfoOfIpcTabInfo)
    | some (.ChromeCommand (.SwitchToTab tab_id window_id)) =>
      .SwitchResult true (some tab_id)
        (some ("SWITCH_TAB:" ++ toString tab_id ++ ":" ++ toString window_id))
    | _ => .TabList []
  | .SwitchToTab tabId _ =>
    match launcher_reply with
    | some (.TabSwitchResult success error) =>
      .SwitchResult success (if success then some tabId else none) error
    | _ =>
      .SwitchResult false none (some "Failed to communicate with launcher")

/-! ## Framing lemmas -/

theorem toLE4_length (n : Nat) : (toLE4 n).length = 4 := rfl

theorem fromLE4_toLE4 (n : Nat) (h : n < 4294967296) : fromLE4 (toLE4 n) = n := by
  simp only [toLE4, fromLE4]
  omega

theorem fromLE4_oversize : fromLE4 [1, 0, 16, 0] = 1048577 := by
  norm_num [fromLE4]

theorem readFrame_exact (hdr body rest : List Nat) (hlen : hdr.length = 4)
    (hfrom : fromLE4 hdr = body.length) :
    readFrame (hdr ++ body ++ rest) = .ok body rest := by
  have hassoc : hdr ++ body ++ rest = hdr ++ (body ++ rest) := by
    rw [List.append_assoc]
  have htake : (hdr ++ (body ++ rest)).take 4 = hdr := List.take_left' hlen
  have hdrop : (hdr ++ (body ++ rest)).drop 4 = body ++ rest := List.drop_left' hlen
  have h4 : 4 ≤ (hdr ++ (body ++ rest)).length := by
    rw [List.length_append, hlen]; omega
  rw [hassoc]
  unfold readFrame
  rw [if_pos h4, htake, hdrop, hfrom,
    if_pos (by rw [List.length_append]; omega : body.length ≤ (body ++ rest).length),
    List.take_left, List.drop_left]

theorem read_message_frame_ok (parse : List Nat → Option IpcMessage)
    (stream body rest : List Nat) (m : IpcMessage)
    (hframe : readFrame stream = .ok body rest) (hparse : parse body = some m) :
    read_message parse stream = .ok m rest := by
  unfold read_message
  rw [hframe]
  change (match parse body with
    | some m => ReadMessageResult.ok m rest
    | none => ReadMessageResult.parseError) = ReadMessageResult.ok m rest
  rw [hparse]

theorem read_message_frame_parse_error (parse : List Nat → Option IpcMessage)
    (stream body rest : List Nat)
    (hframe : readFrame stream = .ok body rest) (hparse : parse body = none) :
    read_message parse stream = .parseError := by
  unfold read_message
  rw [hframe]
  change (match parse body with
    | some m => ReadMessageResult.ok m rest
    | none => ReadMessageResult.parseError) = ReadMessageResult.parseError
  rw [hparse]

theorem native_envelope_invalid (hdr rest : List Nat) (hlen : hdr.length = 4)
    (hbad : fromLE4 hdr = 0 ∨ 1048576 < fromLE4 hdr) :
    native_host_read_envelope (hdr ++ rest) = .invalidLength (fromLE4 hdr) := by
  have htake : (hdr ++ rest).take 4 = hdr := List.take_left' hlen
  have h4 : 4 ≤ (hdr ++ rest).length := by
    rw [List.length_append, hlen]; omega
  unfold native_host_read_envelope
  rw [if_pos h4, htake, if_pos (by omega)]

theorem native_envelope_ok (hdr body rest : List Nat) (hlen : hdr.length = 4)
    (hfrom : fromLE4 hdr = body.length) (hpos : 0 < body.length)
    (hcap : body.length ≤ 1048576) :
    native_host_read_envelope (hdr ++ body ++ rest) = .ok body rest := by
  have hassoc : hdr ++ body ++ rest = hdr ++ (body ++ rest) := by
    rw [List.append_assoc]
  have htake : (hdr ++ (body ++ rest)).take 4 = hdr := List.take_left' hlen
  have hdrop : (hdr ++ (body ++ rest)).drop 4 = body ++ rest := List.drop_left' hlen
  have h4 : 4 ≤ (hdr ++ (body ++ rest)).length := by
    rw [List.length_append, hlen]; omega
  rw [hassoc]
  unfold native_host_read_envelope
  rw [if_pos h4, htake, hfrom, if_neg (by omega), hdrop,
    if_pos (by rw [List.length_append]; omega : body.length ≤ (body ++ rest).length),
    List.take_left, List.drop_left]

/-- C1 counterexample: on the pipe transport, `read_message` performs no
length validation at all — an Envelope advertising length 1,048,577 is not
rejected before the body is read: the framing layer reads exactly
1,048,577 body bytes (leaving the trailing `[5, 6]` in the stream) and
hands the body to the JSON parse step (the `parseError` outcome shows
execution reached parsing, past the body read), contradicting the claim
that the rejection happens on both the pipe and the stdio transport. -/
theorem pipe_framing_accepts_oversize :
    fromLE4 [1, 0, 16, 0] = 1048577
    ∧ readFrame ([1, 0, 16, 0] ++ List.replicate 1048577 97 ++ [5, 6])
        = .ok (List.replicate 1048577 97) [5, 6]
    ∧ read_message (fun _ => none) ([1, 0, 16, 0] ++ List.replicate 1048577 97 ++ [5, 6])
        = .parseError := by
  have h2 : readFrame ([1, 0, 16, 0] ++ List.replicate 1048577 97 ++ [5, 6])
      = .ok (List.replicate 1048577 97) [5, 6] :=
    readFrame_exact [1, 0, 16, 0] (List.replicate 1048577 97) [5, 6] rfl
      (by rw [fromLE4_oversize, List.length_replicate])
  exact ⟨fromLE4_oversize, h2,
    read_message_frame_parse_error _ _ _ _ h2 rfl⟩

/-- C1 (amended): envelope decoding reads exactly 4 little-endian length
bytes on both transports; the stdio transport rejects an advertised length
of 0 or above 1,048,576 before reading the body (the outcome is fixed by
the 4 header bytes alone, whatever follows), and otherwise reads exactly
that many body bytes; the pipe transport's `read_message` performs no
length validation and reads exactly the advertised number of body bytes
for any advertised length, 1,048,577 included. -/
theorem envelope_length_validation :
    (∀ hdr rest : List Nat, hdr.length = 4 →
        (fromLE4 hdr = 0 ∨ 1048576 < fromLE4 hdr) →
        native_host_read_envelope (hdr ++ rest) = .invalidLength (fromLE4 hdr))
    ∧ (∀ hdr body rest : List Nat, hdr.length = 4 → fromLE4 hdr = body.length →
        0 < body.length → body.length ≤ 1048576 →
        native_host_read_envelope (hdr ++ body ++ rest) = .ok body rest)
    ∧ (∀ hdr body rest : List Nat, hdr.length = 4 → fromLE4 hdr = body.length →
        readFrame (hdr ++ body ++ rest) = .ok body rest) :=
  ⟨native_envelope_invalid, native_envelope_ok, readFrame_exact⟩

/-- Witness for the amended C1 theorem at concrete inputs: the stdio
transport rejects an advertised length of 1,048,577 before the body and
accepts a 1-byte envelope; the pipe framing accepts the advertised length
1,048,577 and reads exactly that many body bytes. -/
theorem envelope_length_validation_witness :
    native_host_read_envelope ([1, 0, 16, 0] ++ List.replicate 1048577 97)
        = .invalidLength (fromLE4 [1, 0, 16, 0])
    ∧ native_host_read_envelope ([1, 0, 0, 0] ++ [65] ++ [7]) = .ok [65] [7]
    ∧ readFrame ([1, 0, 16, 0] ++ List.replicate 1048577 97 ++ [5, 6])
        = .ok (List.replicate 1048577 97) [5, 6] :=
  ⟨envelope_length_validation.1 [1, 0, 16, 0] (List.replicate 1048577 97) rfl
      (by rw [fromLE4_oversize]; norm_num),
    envelope_length_validation.2.1 [1, 0, 0, 0] [65] [7] rfl (by norm_num [fromLE4])
      (by norm_num) (by norm_num),
    envelope_length_validation.2.2 [1, 0, 16, 0] (List.replicate 1048577 97) [5, 6] rfl
      (by rw [fromLE4_oversize, List.length_replicate])⟩

/-- C2: framing round-trip — for any serde serializer/parser pair that
round-trips a message `b` (serde_json's contract for the known message
schemas) with a body shorter than `2^32` bytes, decoding the byte stream
produced by encoding `b` yields `b` again. -/
theorem framing_round_trip (ser : IpcMessage → List Nat)
    (parse : List Nat → Option IpcMessage) (b : IpcMessage)
    (hparse : parse (ser b) = some b) (hlen : (ser b).length < 4294967296) :
    read_message parse (send_message ser b) = .ok b [] := by
  have hmod : (ser b).length % 4294967296 = (ser b).length := Nat.mod_eq_of_lt hlen
  have hframe : readFrame (toLE4 ((ser b).length % 4294967296) ++ ser b ++ [])
      = .ok (ser b) [] :=
    readFrame_exact _ _ _ (toLE4_length _)
      (by rw [hmod]; exact fromLE4_toLE4 _ hlen)
  rw [List.append_nil] at hframe
  exact read_message_frame_ok parse _ _ _ b hframe hparse

/-- Witness for C2 at a concrete serializer/parser pair and message. -/
theorem framing_round_trip_witness :
    sampleParse (sampleSer IpcMessage.GetTabs) = some IpcMessage.GetTabs
    ∧ (sampleSer IpcMessage.GetTabs).length < 4294967296
    ∧ read_message sampleParse (send_message sampleSer IpcMessage.GetTabs)
        = .ok IpcMessage.GetTabs [] :=
  ⟨rfl, by norm_num [sampleSer],
    framing_round_trip sampleSer sampleParse IpcMessage.GetTabs rfl
      (by norm_num [sampleSer])⟩

/-! ## CommandQueue and TabStateStore theorems -/

/-- C3: `CommandQueue` is an exact FIFO with at-most-once delivery —
pushing `c1, c2, c3` on a state with an empty queue and popping four times
yields `c1`, `c2`, `c3`, then absent; and whenever `pop_command` returns a
command it is the queue's head, which is removed: the queue shrinks by
exactly that one occurrence, so the popped command is never handed out
again by a later pop. -/
theorem command_queue_fifo_at_most_once :
    (∀ (s : TabManager) (c1 c2 c3 : ChromeCommand), s.command_queue = [] →
      (((s.queue_command c1).queue_command c2).queue_command c3).pop_command.1 = some c1
      ∧ (((s.queue_command c1).queue_command c2).queue_command c3).pop_command.2.pop_command.1 = some c2
      ∧ (((s.queue_command c1).queue_command c2).queue_command c3).pop_command.2.pop_command.2.pop_command.1 = some c3
      ∧ (((s.queue_command c1).queue_command c2).queue_command c3).pop_command.2.pop_command.2.pop_command.2.pop_command.1 = none)
    ∧ (∀ (s : TabManager) (c : ChromeCommand), s.pop_command.1 = some c →
      s.command_queue = c :: s.pop_command.2.command_queue
      ∧ s.pop_command.2.command_queue.length + 1 = s.command_queue.length
      ∧ s.pop_command.2.command_queue.count c + 1 = s.command_queue.count c) := by
  constructor
  · intro s c1 c2 c3 h
    simp [TabManager.queue_command, TabManager.pop_command, h]
  · intro s c h
    match hq : s.command_queue with
    | [] =>
      rw [TabManager.pop_command, hq] at h
      simp at h
    | c' :: rest =>
      rw [TabManager.pop_command, hq] at h
      simp only at h
      cases h
      rw [TabManager.pop_command, hq]
      simp [List.count_cons_self]

/-- Witness for C3 at a concrete state and three concrete commands. -/
theorem command_queue_fifo_at_most_once_witness :
    ((((TabManager.new.queue_command (.SwitchToTab 1 10)).queue_command
        (.SwitchToTab 2 20)).queue_command (.SwitchToTab 3 30)).pop_command.1
      = some (.SwitchToTab 1 10)
    ∧ (((TabManager.new.queue_command (.SwitchToTab 1 10)).queue_command
        (.SwitchToTab 2 20)).queue_command (.SwitchToTab 3 30)).pop_command.2.pop_command.1
      = some (.SwitchToTab 2 20)
    ∧ (((TabManager.new.queue_command (.SwitchToTab 1 10)).queue_command
        (.SwitchToTab 2 20)).queue_command (.SwitchToTab 3 30)).pop_command.2.pop_command.2.pop_command.1
      = some (.SwitchToTab 3 30)
    ∧ (((TabManager.new.queue_command (.SwitchToTab 1 10)).queue_command
        (.SwitchToTab 2 20)).queue_command (.SwitchToTab 3 30)).pop_command.2.pop_command.2.pop_command.2.pop_command.1
      = none)
    ∧ (TabManager.mk [] [.SwitchToTab 5 2, .SwitchToTab 6 3]).command_queue
      = ChromeCommand.SwitchToTab 5 2
        :: (TabManager.mk [] [.SwitchToTab 5 2, .SwitchToTab 6 3]).pop_command.2.command_queue :=
  ⟨command_queue_fifo_at_most_once.1 TabManager.new
      (.SwitchToTab 1 10) (.SwitchToTab 2 20) (.SwitchToTab 3 30) rfl,
    (command_queue_fifo_at_most_once.2 (TabManager.mk [] [.SwitchToTab 5 2, .SwitchToTab 6 3])
      (.SwitchToTab 5 2) rfl).1⟩

/-- C4: pipe `GetTabs` piggyback — when the command queue is non-empty the
server answers `GetTabs` with `ChromeCommand` carrying the popped head and
the queue loses that head; when the queue is empty it answers with
`TabList` carrying the current snapshot and the state is unchanged (so a
subsequent `GetTabs` with an empty queue returns the tab list). -/
theorem get_tabs_piggyback (s : TabManager) :
    (∀ (c : ChromeCommand) (rest : List ChromeCommand), s.command_queue = c :: rest →
      run_ipc_server_step s .GetTabs
        = (some (.ChromeCommand (chromeExtensionCommandOfChromeCommand c)),
            { s with command_queue := rest }))
    ∧ (s.command_queue = [] →
      run_ipc_server_step s .GetTabs
        = (some (.TabList (s.tabs.map tabInfoOfChromeTab)), s)) := by
  constructor
  · intro c rest h
    simp [run_ipc_server_step, TabManager.pop_command, h]
  · intro h
    simp [run_ipc_server_step, TabManager.pop_command, TabManager.get_tabs, h]

/-- Witness for C4, the spec's piggyback scenario: with
`{tab_id: 5, window_id: 2}` pending, `GetTabs` is answered with
`ChromeCommand{command: {tab_id: 5, window_id: 2}}`; a second `GetTabs` on
the resulting state (empty queue) is answered with the tab list. -/
theorem get_tabs_piggyback_witness :
    run_ipc_server_step
        (TabManager.mk [ChromeTab.mk 5 2 "A" "http://a" "" true 0]
          [.SwitchToTab 5 2]) .GetTabs
      = (some (.ChromeCommand (chromeExtensionCommandOfChromeCommand (.SwitchToTab 5 2))),
          { TabManager.mk [ChromeTab.mk 5 2 "A" "http://a" "" true 0]
              [.SwitchToTab 5 2] with command_queue := [] })
    ∧ run_ipc_server_step
        (TabManager.mk [ChromeTab.mk 5 2 "A" "http://a" "" true 0] []) .GetTabs
      = (some (.TabList ((TabManager.mk [ChromeTab.mk 5 2 "A" "http://a" "" true 0] []).tabs.map
            tabInfoOfChromeTab)),
          TabManager.mk [ChromeTab.mk 5 2 "A" "http://a" "" true 0] []) :=
  ⟨(get_tabs_piggyback _).1 (.SwitchToTab 5 2) [] rfl,
    (get_tabs_piggyback _).2 rfl⟩

/-- C5: `search_tabs` returns exactly the stored tabs whose title or URL
contains the query case-insensitively, and the empty query returns all
stored tabs. -/
theorem search_tabs_characterization (s : TabManager) (query : String) :
    (query.isEmpty = true → s.search_tabs query = s.tabs)
    ∧ (∀ t : ChromeTab, t ∈ s.search_tabs query ↔
        t ∈ s.tabs ∧ (query.isEmpty = true
          ∨ containsCaseInsensitive t.title query = true
          ∨ containsCaseInsensitive t.url query = true)) := by
  constructor
  · intro h
    rw [TabManager.search_tabs, if_pos h]
  · intro t
    by_cases h : query.isEmpty
    · rw [TabManager.search_tabs, if_pos h]
      simp [h]
    · rw [TabManager.search_tabs, if_neg h]
      simp only [List.mem_filter, containsCaseInsensitive, strToLower, Bool.or_eq_true,
        eq_iff_iff]
      constructor
      · rintro ⟨hm, hp⟩
        exact ⟨hm, Or.inr (by simpa using hp)⟩
      · rintro ⟨hm, hp⟩
        refine ⟨hm, ?_⟩
        rcases hp with hp | hp | hp
        · exact absurd hp (by simpa using h)
        · simp [hp]
        · simp [hp]

/-- Witness for C5: the spec's case-insensitivity scenario —
`search("CHROME")` over the single stored tab titled "Chrome Canary"
returns that tab. -/
theorem search_tabs_characterization_witness :
    ChromeTab.mk 1 1 "Chrome Canary" "" "" true 0
      ∈ (TabManager.mk [ChromeTab.mk 1 1 "Chrome Canary" "" "" true 0] []).search_tabs
        "CHROME" :=
  ((search_tabs_characterization _ "CHROME").2 _).mpr
    ⟨by simp, Or.inr (Or.inl (by decide))⟩

/-- C10: a `SwitchToTab` request arriving over the pipe transport is
acknowledged with `TabSwitchResult{success: true, error: null}` while the
shared state is returned entirely unchanged — no `SwitchCommand` is queued
and the tab snapshot is untouched, so a switch requested via the pipe is
acknowledged but never delivered. -/
theorem pipe_switch_to_tab_acknowledged_without_effect
    (s : TabManager) (tab_id window_id : Int) :
    run_ipc_server_step s (.SwitchToTab tab_id window_id)
      = (some (.TabSwitchResult true none), s) := rfl

/-! ## WebSocket and bridge theorems -/

/-- C6 counterexample: a well-formed `updateTabs` Request whose `params`
field is absent is answered with a 400 error Response (`result` unset,
`error` set), not a success Response — so updateTabs and switchToTab do
not succeed for *every* Request carrying those methods. -/
theorem updateTabs_missing_params_yields_error :
    handle_request "1" "updateTabs" none 0 TabManager.new
      = (response_error "1" 400 "Missing params for updateTabs", TabManager.new)
    ∧ handle_request "1" "switchToTab" none 0 TabManager.new
      = (response_error "1" 400 "Missing params for switchToTab", TabManager.new) :=
  ⟨rfl, rfl⟩

/-- C6 (amended): an `updateTabs` or `switchToTab` Request whose params
are present and deserialize succeeds — the handler returns a success
Response (`result` set to `Success{success: true}`, `error` absent),
`updateTabs` replaces the snapshot from the supplied tabs and
`switchToTab` pushes the SwitchCommand; Requests with missing or
malformed params are instead answered with a 400 error Response. -/
theorem updateTabs_switchToTab_success_with_valid_params :
    (∀ (id : String) (p : Json) (now : Int) (s : TabManager) (d : UpdateTabsParams),
      deserUpdateTabsParams p = some d →
      handle_request id "updateTabs" (some p) now s
        = (response_ok id (.Success true), s.update_tabs d.tabs))
    ∧ (∀ (id : String) (p : Json) (now : Int) (s : TabManager) (d : SwitchTabParams),
      deserSwitchTabParams p = some d →
      handle_request id "switchToTab" (some p) now s
        = (response_ok id (.Success true),
            s.queue_command (.SwitchToTab d.tab_id d.window_id))) := by
  constructor <;> intro id p now s d h <;> simp +decide [handle_request, h]

/-- Witness for the amended C6 at concrete params: `updateTabs` with
`{tabs: []}` and `switchToTab` with `{tab_id: 5, window_id: 2}` both
return a success Response. -/
theorem updateTabs_switchToTab_success_witness :
    deserUpdateTabsParams (Json.obj [("tabs", Json.arr [])])
      = some (UpdateTabsParams.mk [])
    ∧ handle_request "7" "updateTabs" (some (Json.obj [("tabs", Json.arr [])])) 0
        TabManager.new
      = (response_ok "7" (.Success true), TabManager.new.update_tabs [])
    ∧ deserSwitchTabParams
        (Json.obj [("tab_id", Json.num 5), ("window_id", Json.num 2)])
      = some (SwitchTabParams.mk 5 2)
    ∧ handle_request "8" "switchToTab"
        (some (Json.obj [("tab_id", Json.num 5), ("window_id", Json.num 2)])) 0
        TabManager.new
      = (response_ok "8" (.Success true),
          TabManager.new.queue_command (.SwitchToTab 5 2)) :=
  ⟨rfl,
    updateTabs_switchToTab_success_with_valid_params.1 "7" _ 0 TabManager.new
      (UpdateTabsParams.mk []) rfl,
    rfl,
    updateTabs_switchToTab_success_with_valid_params.2 "8" _ 0 TabManager.new
      (SwitchTabParams.mk 5 2) rfl⟩

/-- C7: a Request whose method is none of `getTabs`, `updateTabs`,
`switchToTab`, `keepAlive` is answered with an error Response carrying
the same request id, code 404 and message `"Unknown method: <method>"`,
leaving the state unchanged. -/
theorem unknown_method_404 (id method : String) (params : Option Json) (now : Int)
    (s : TabManager)
    (h1 : method ≠ "getTabs") (h2 : method ≠ "updateTabs")
    (h3 : method ≠ "switchToTab") (h4 : method ≠ "keepAlive") :
    handle_request id method params now s
      = (response_error id 404 ("Unknown method: " ++ method), s) := by
  simp [handle_request, h1, h2, h3, h4]

/-- Witness for C7, the spec's scenario: `Request{id:"2",method:"bogus"}`
yields `Response{id:"2", error:{code:404, message:"Unknown method: bogus"}}`. -/
theorem unknown_method_404_witness :
    handle_request "2" "bogus" none 0 TabManager.new
      = (response_error "2" 404 ("Unknown method: " ++ "bogus"), TabManager.new)
    ∧ ("Unknown method: " ++ "bogus" : String) = "Unknown method: bogus" :=
  ⟨unknown_method_404 "2" "bogus" none 0 TabManager.new
      (by decide) (by decide) (by decide) (by decide), rfl⟩

/-- C8 counterexample: a text frame containing valid JSON of an
unrecognized shape (here `{"type": "bogus"}`) is logged and dropped — the
session sends no Response at all, rather than answering with a 400 error
Response as the claim states (the connection does stay open). -/
theorem schema_error_frame_dropped :
    handle_connection_step (Json.obj [("type", Json.str "bogus")]) 0 TabManager.new
      = (.drop, TabManager.new) := rfl

/-- C8 (amended): every inbound text frame whose valid JSON does not parse
as a well-formed `Request` — be it another known shape or an unrecognized
one — is dropped without any reply and with the state untouched; the
session loop continues (no 400 error Response is produced; 400 responses
only arise inside `handle_request` for bad params of known methods). -/
theorem schema_error_frames_never_answered (j : Json) (now : Int) (s : TabManager)
    (h : ∀ (id method : String) (params : Option Json),
      parseWebSocketMessage j ≠ some (.Request id method params)) :
    handle_connection_step j now s = (.drop, s) := by
  cases hp : parseWebSocketMessage j with
  | none => unfold handle_connection_step; rw [hp]
  | some m =>
    cases m with
    | Request id method params => exact absurd hp (h id method params)
    | Response a b c => unfold handle_connection_step; rw [hp]
    | Event e d => unfold handle_connection_step; rw [hp]

/-- Witness for the amended C8 at a concrete unrecognized-shape frame and
a concrete non-empty state. -/
theorem schema_error_frames_never_answered_witness :
    handle_connection_step (Json.obj [("type", Json.str "nonsense")]) 5
        (TabManager.mk [ChromeTab.mk 1 1 "A" "http://a" "" true 0] [])
      = (.drop, TabManager.mk [ChromeTab.mk 1 1 "A" "http://a" "" true 0] []) :=
  schema_error_frames_never_answered _ 5 _
    (fun _ _ _ h => Option.noConfusion h)

/-- C9: bridge command-in-error-field shim — when the launcher's reply to
a forwarded `getTabs` is `ChromeCommand::SwitchToTab{tab_id, window_id}`,
the bridge's Response is a `switchResult` with `success: true`, `tabId`
set to `tab_id` and `error` carrying exactly the string
`"SWITCH_TAB:<tab_id>:<window_id>"`; when the reply is `TabList{tabs}` the
Response is a `tabList` carrying those tabs. -/
theorem bridge_command_in_error_field (tab_id window_id : Int) (tabs : List TabInfo) :
    handle_command .GetTabs (some (.ChromeCommand (.SwitchToTab tab_id window_id)))
      = .SwitchResult true (some tab_id)
          (some ("SWITCH_TAB:" ++ toString tab_id ++ ":" ++ toString window_id))
    ∧ handle_command .GetTabs (some (.TabList tabs))
      = .TabList (tabs.map nhTabInfoOfIpcTabInfo) :=
  ⟨rfl, rfl⟩
